import Mathlib

/-!
Formal model of the task-delegation pipeline of the project-pathway
repository, together with theorems settling the behavioural claims made
about it.

The Python sources are shallowly embedded:

* Python strings stay Lean strings; the string methods the code uses
  (split, strip, replace, lower, upper, whitespace tokenisation and the
  membership test) are re-implemented structurally over character lists so
  that every concrete run reduces inside the kernel.
* Python runtime values that flow through dynamically typed slots are the
  inductive PyVal; Python exceptions are the inductive PyErr, and any code
  path that can raise returns Except PyErr.
* The mutable task-state dictionary is the record TaskState, with one
  optional field per key ever written by any stage.
* External collaborators (the json decoder, ast.literal_eval, the LLM
  reply, environment variables, the HTTP transport) are parameters,
  gathered in the Env record where a whole stage needs them.

Embedded source files: agents/insurance/insurance_agent.py,
agents/insurance/medicaid/medicaid_specialist_agent.py,
agents/insurance/medicaid/portals/mohealthnet_agent.py,
agents/basic_search_agent.py, agents/supervisor_agent.py,
pathway/integration/agent_d_client.py, credentials/credential_manager.py.
-/

namespace Pathway

/-! ## Python string primitives -/

/-- Does the first character list lead (appear as an initial segment of) the second? -/
def leadsWith : List Char → List Char → Bool
  | [], _ => true
  | _ :: _, [] => false
  | a :: as, b :: bs => a == b && leadsWith as bs

/-- Does the needle occur anywhere inside the haystack? -/
def occursIn (needle : List Char) : List Char → Bool
  | [] => needle.isEmpty
  | h :: t => leadsWith needle (h :: t) || occursIn needle t

/-- Python substring membership, the test written as needle in hay. -/
def strOccurs (needle hay : String) : Bool := occursIn needle.data hay.data

/-- Split on every non-overlapping occurrence of the separator, scanning left to
right, like Python str.split(sep) for a non-empty sep.  The fuel argument is
instantiated with the length of the scanned list, which bounds the number of
steps, so the recursion is structural and reduces in the kernel. -/
def splitFuel (sep : List Char) : Nat → List Char → List Char → List (List Char)
  | _, [], cur => [cur.reverse]
  | 0, h :: t, cur => [cur.reverse ++ h :: t]
  | fuel + 1, h :: t, cur =>
      if leadsWith sep (h :: t) then
        cur.reverse :: splitFuel sep fuel (List.drop (sep.length - 1) t) []
      else
        splitFuel sep fuel t (h :: cur)

/-- Python s.split(sep) for a non-empty separator. -/
def pySplit (s sep : String) : List String :=
  (splitFuel sep.data s.data.length s.data []).map String.mk

/-- Python s.lower() (ASCII-faithful). -/
def pyLowerStr (s : String) : String := String.mk (s.data.map Char.toLower)

/-- Python s.upper() (ASCII-faithful). -/
def pyUpperStr (s : String) : String := String.mk (s.data.map Char.toUpper)

/-- Python s.strip(): drop leading and trailing whitespace. -/
def pyStrip (s : String) : String :=
  String.mk (((s.data.dropWhile Char.isWhitespace).reverse.dropWhile Char.isWhitespace).reverse)

/-- Helper for pyWsTokens: accumulate maximal runs of non-whitespace characters. -/
def wsTokensAux : List Char → List Char → List String
  | [], cur => if cur.isEmpty then [] else [String.mk cur.reverse]
  | h :: t, cur =>
      if h.isWhitespace then
        (if cur.isEmpty then [] else [String.mk cur.reverse]) ++ wsTokensAux t []
      else
        wsTokensAux t (h :: cur)

/-- Python s.split() with no argument: whitespace tokenisation, empties dropped. -/
def pyWsTokens (s : String) : List String := wsTokensAux s.data []

/-- Join a list of strings with a separator. -/
def joinWith (sep : String) : List String → String
  | [] => ""
  | [a] => a
  | a :: b :: t => a ++ sep ++ joinWith sep (b :: t)

/-- Python s.replace(old, new) for a non-empty old: replace every occurrence. -/
def pyReplace (s old new : String) : String :=
  joinWith new (pySplit s old)

/-! ## Python values and exceptions -/

/-- A dynamically typed Python value as it flows through the task state, the
planner output and the decoded stream lines.  Floats never appear on any path
the claims touch and are omitted. -/
inductive PyVal where
  | pyNone : PyVal
  | pyBool : Bool → PyVal
  | pyInt : Int → PyVal
  | str : String → PyVal
  | list : List PyVal → PyVal
  | dict : List (String × PyVal) → PyVal
  deriving Repr, Inhabited

mutual

/-- Decidable equality on PyVal, written out by hand because the nested lists
defeat the deriving handler; the recursion is structural so that concrete
comparisons reduce in the kernel. -/
def PyVal.decEq : (a b : PyVal) → Decidable (a = b)
  | .pyNone, .pyNone => isTrue rfl
  | .pyBool a, .pyBool b =>
      if h : a = b then isTrue (by rw [h]) else isFalse (by intro hh; cases hh; exact h rfl)
  | .pyInt a, .pyInt b =>
      if h : a = b then isTrue (by rw [h]) else isFalse (by intro hh; cases hh; exact h rfl)
  | .str a, .str b =>
      if h : a = b then isTrue (by rw [h]) else isFalse (by intro hh; cases hh; exact h rfl)
  | .list xs, .list ys =>
      match PyVal.decEqList xs ys with
      | isTrue h => isTrue (by rw [h])
      | isFalse h => isFalse (by intro hh; cases hh; exact h rfl)
  | .dict xs, .dict ys =>
      match PyVal.decEqDict xs ys with
      | isTrue h => isTrue (by rw [h])
      | isFalse h => isFalse (by intro hh; cases hh; exact h rfl)
  | .pyNone, .pyBool _ => isFalse (by intro h; cases h)
  | .pyNone, .pyInt _ => isFalse (by intro h; cases h)
  | .pyNone, .str _ => isFalse (by intro h; cases h)
  | .pyNone, .list _ => isFalse (by intro h; cases h)
  | .pyNone, .dict _ => isFalse (by intro h; cases h)
  | .pyBool _, .pyNone => isFalse (by intro h; cases h)
  | .pyBool _, .pyInt _ => isFalse (by intro h; cases h)
  | .pyBool _, .str _ => isFalse (by intro h; cases h)
  | .pyBool _, .list _ => isFalse (by intro h; cases h)
  | .pyBool _, .dict _ => isFalse (by intro h; cases h)
  | .pyInt _, .pyNone => isFalse (by intro h; cases h)
  | .pyInt _, .pyBool _ => isFalse (by intro h; cases h)
  | .pyInt _, .str _ => isFalse (by intro h; cases h)
  | .pyInt _, .list _ => isFalse (by intro h; cases h)
  | .pyInt _, .dict _ => isFalse (by intro h; cases h)
  | .str _, .pyNone => isFalse (by intro h; cases h)
  | .str _, .pyBool _ => isFalse (by intro h; cases h)
  | .str _, .pyInt _ => isFalse (by intro h; cases h)
  | .str _, .list _ => isFalse (by intro h; cases h)
  | .str _, .dict _ => isFalse (by intro h; cases h)
  | .list _, .pyNone => isFalse (by intro h; cases h)
  | .list _, .pyBool _ => isFalse (by intro h; cases h)
  | .list _, .pyInt _ => isFalse (by intro h; cases h)
  | .list _, .str _ => isFalse (by intro h; cases h)
  | .list _, .dict _ => isFalse (by intro h; cases h)
  | .dict _, .pyNone => isFalse (by intro h; cases h)
  | .dict _, .pyBool _ => isFalse (by intro h; cases h)
  | .dict _, .pyInt _ => isFalse (by intro h; cases h)
  | .dict _, .str _ => isFalse (by intro h; cases h)
  | .dict _, .list _ => isFalse (by intro h; cases h)

/-- Decidable equality on lists of PyVal. -/
def PyVal.decEqList : (xs ys : List PyVal) → Decidable (xs = ys)
  | [], [] => isTrue rfl
  | [], _ :: _ => isFalse (by intro h; cases h)
  | _ :: _, [] => isFalse (by intro h; cases h)
  | a :: as, b :: bs =>
      match PyVal.decEq a b with
      | isFalse h => isFalse (by intro hh; cases hh; exact h rfl)
      | isTrue h1 =>
          match PyVal.decEqList as bs with
          | isTrue h2 => isTrue (by rw [h1, h2])
          | isFalse h => isFalse (by intro hh; cases hh; exact h rfl)

/-- Decidable equality on key-value lists of PyVal. -/
def PyVal.decEqDict : (xs ys : List (String × PyVal)) → Decidable (xs = ys)
  | [], [] => isTrue rfl
  | [], _ :: _ => isFalse (by intro h; cases h)
  | _ :: _, [] => isFalse (by intro h; cases h)
  | (k1, v1) :: as, (k2, v2) :: bs =>
      match String.decEq k1 k2 with
      | isFalse h => isFalse (by intro hh; cases hh; exact h rfl)
      | isTrue hk =>
          match PyVal.decEq v1 v2 with
          | isFalse h => isFalse (by intro hh; cases hh; exact h rfl)
          | isTrue hv =>
              match PyVal.decEqDict as bs with
              | isTrue ht => isTrue (by rw [hk, hv, ht])
              | isFalse h => isFalse (by intro hh; cases hh; exact h rfl)

end

instance : DecidableEq PyVal := PyVal.decEq

/-- The Python exceptions the embedded code can raise or catch.  The payload is
the argument text, which is what str(e) yields for these exception types.
AuthConfigError appears in the specified error taxonomy; it is included so
that claims about it are statable. -/
inductive PyErr where
  | typeError : String → PyErr
  | attributeError : String → PyErr
  | indexError : String → PyErr
  | keyError : String → PyErr
  | valueError : String → PyErr
  | connectionError : String → PyErr
  | authConfigError : String → PyErr
  deriving Repr, DecidableEq

/-- Python str(e) on the modelled exceptions: the argument text. -/
def PyErr.msg : PyErr → String
  | .typeError m => m
  | .attributeError m => m
  | .indexError m => m
  | .keyError m => m
  | .valueError m => m
  | .connectionError m => m
  | .authConfigError m => m

/-- First-match association lookup, the access pattern of a decoded JSON
object or planner dict (keys are unique in both, so first match is exact). -/
def pyLookup : List (String × PyVal) → String → Option PyVal
  | [], _ => none
  | (k, v) :: t, key => if k = key then some v else pyLookup t key

/-- The Python type name, as it appears in runtime error messages. -/
def PyVal.typeName : PyVal → String
  | .pyNone => "NoneType"
  | .pyBool _ => "bool"
  | .pyInt _ => "int"
  | .str _ => "str"
  | .list _ => "list"
  | .dict _ => "dict"

/-- Is the value a mapping? -/
def PyVal.isDict : PyVal → Bool
  | .dict _ => true
  | _ => false

/-- Python v.get(key, dflt): defaulted lookup on a dict; any other receiver
raises AttributeError, as v.get resolves no attribute. -/
def pyGet (v : PyVal) (key : String) (dflt : PyVal) : Except PyErr PyVal :=
  match v with
  | .dict kvs => .ok ((pyLookup kvs key).getD dflt)
  | other => .error (.attributeError (other.typeName ++ " object has no attribute get"))

/-- Python v[key] subscription with a string key. -/
def pyGetItem (v : PyVal) (key : String) : Except PyErr PyVal :=
  match v with
  | .dict kvs =>
      match pyLookup kvs key with
      | some x => .ok x
      | none => .error (.keyError key)
  | .str _ => .error (.typeError "string indices must be integers")
  | .list _ => .error (.typeError "list indices must be integers")
  | other => .error (.typeError (other.typeName ++ " object is not subscriptable"))

/-- Python key in v: key containment for dicts, element membership for lists,
substring membership for strings; other receivers are not iterable. -/
def pyMem (v : PyVal) (key : String) : Except PyErr Bool :=
  match v with
  | .dict kvs => .ok (pyLookup kvs key).isSome
  | .list xs => .ok (xs.contains (.str key))
  | .str s => .ok (strOccurs key s)
  | other => .error (.typeError ("argument of type " ++ other.typeName ++ " is not iterable"))

/-- Python truthiness of a value. -/
def PyVal.truthy : PyVal → Bool
  | .pyNone => false
  | .pyBool b => b
  | .pyInt n => n != 0
  | .str s => s ≠ ""
  | .list xs => !xs.isEmpty
  | .dict kvs => !kvs.isEmpty

/-- Python v.lower(): only strings carry the method. -/
def pyLowerVal : PyVal → Except PyErr String
  | .str s => .ok (pyLowerStr s)
  | v => .error (.attributeError (v.typeName ++ " object has no attribute lower"))

/-- Python v.upper(): only strings carry the method. -/
def pyUpperVal : PyVal → Except PyErr String
  | .str s => .ok (pyUpperStr s)
  | v => .error (.attributeError (v.typeName ++ " object has no attribute upper"))

/-- Python tokens[0] on a list of strings. -/
def pyItem0 : List String → Except PyErr String
  | [] => .error (.indexError "list index out of range")
  | a :: _ => .ok a

/-- Python tokens[-1] on a list of strings. -/
def pyItemLast : List String → Except PyErr String
  | [] => .error (.indexError "list index out of range")
  | [a] => .ok a
  | _ :: b :: t => pyItemLast (b :: t)

/-! ## The task state -/

/-- The patient_info dict written by InsuranceAgent.execute: exactly the three
keys first_name, last_name and dob. -/
structure PatientInfo where
  first_name : String
  last_name : String
  dob : String
  deriving Repr, DecidableEq

/-- The shared mutable task-state record, one optional field per key any stage
ever reads or writes.  plan, search_results, response and reasoning hold
dynamically typed values in the source and stay PyVal here. -/
structure TaskState where
  query : Option String
  insurance_type : Option String
  portal_name : Option String
  patient_info : Option PatientInfo
  plan : Option PyVal
  search_results : Option PyVal
  portal_response : Option String
  response : Option PyVal
  reasoning : Option PyVal
  error : Option String
  deriving Repr, DecidableEq

/-- The task state with every field absent. -/
def blankState : TaskState :=
  ⟨none, none, none, none, none, none, none, none, none, none⟩

/-! ## Stream events as observed through the handler log -/

/-- The observable effects of one print_stream invocation: the tagged message
line the handler logs/prints, the separate navigation log, the warning the
eMOMED handler logs for an undecodable line, and the plain-text line the
search handler logs for one. -/
inductive LogEntry where
  | streamMessage : String → PyVal → LogEntry
  | navigation : PyVal → PyVal → LogEntry
  | parseWarning : String → String → LogEntry
  | plainText : String → LogEntry
  deriving Repr, DecidableEq

/-- The (tag, message) pairs of the logged stream messages, in order. -/
def messageEntries : List LogEntry → List (String × PyVal)
  | [] => []
  | LogEntry.streamMessage tag m :: t => (tag, m) :: messageEntries t
  | _ :: t => messageEntries t

/-- Did the computation raise? -/
def raisesErr {α : Type} : Except PyErr α → Bool
  | .ok _ => false
  | .error _ => true

/-! ## The streaming client (pathway/integration/agent_d_client.py) -/

deriving instance DecidableEq for Except

/-- The backend response to one /execute_task POST: the lines that
response.iter_lines yields, then how the iteration ends (ok, or the message of
the requests.exceptions.RequestException that aborts it; a connection refusal
or a non-2xx status is the degenerate case with no lines). -/
structure StreamResponse where
  lines : List String
  outcome : Except String Unit
  deriving Repr, DecidableEq

/-- AgentDClient.execute_command as defined in the source: accumulates every
non-empty decoded line plus a newline into the returned buffer; a transport
failure is re-raised as ConnectionError wrapping the cause.  Note the source
signature takes only (self, command) - there is no callback parameter. -/
def execute_command (resp : StreamResponse) : Except PyErr String :=
  match resp.outcome with
  | .error cause => .error (.connectionError ("Failed to execute command: " ++ cause))
  | .ok _ =>
      .ok (resp.lines.foldl (fun acc l => if l = "" then acc else acc ++ l ++ "\n") "")

/-- The parameter names of AgentDClient.execute_command in the source, self
excluded: the method accepts exactly one argument. -/
def executeCommandParams : List String := ["command"]

/-- The keyword-argument names both handler call sites pass to
execute_command (callback=print_stream in mohealthnet_agent.py line 135 and
basic_search_agent.py line 102). -/
def handlerCallKwargs : List String := ["callback"]

/-- Python call binding: the keyword arguments a call passes that the callee
does not declare.  A non-empty result means the call raises TypeError before
the body runs. -/
def unexpectedKwargs (params kwargs : List String) : List String :=
  kwargs.filter (fun k => !params.contains k)

/-- Does binding the call raise TypeError? -/
def callRaisesTypeError (params kwargs : List String) : Bool :=
  !(unexpectedKwargs params kwargs).isEmpty

/-- Fold a per-line callback over the streamed lines while accumulating every
non-empty raw line plus a newline, threading the callback state; a callback
exception aborts the fold.  Helper for the streaming contract below. -/
def streamFold {σ : Type} (cb : String → σ → Except PyErr σ) (st : σ) :
    List String → σ × Except PyErr String
  | [] => (st, .ok "")
  | l :: ls =>
      if l = "" then streamFold cb st ls
      else
        match cb l st with
        | .error e => (st, .error e)
        | .ok st1 =>
            match streamFold cb st1 ls with
            | (st2, .ok acc) => (st2, .ok (l ++ "\n" ++ acc))
            | (st2, .error e) => (st2, .error e)

/-- Modelled from the spec: the streaming contract of the client operation the
handlers call, execute(command, on_event) - for each non-empty line invoke the
callback and append the raw line plus a newline to the returned buffer; wrap a
transport failure in ConnectionError.  The source client (execute_command
above) lacks the callback parameter, so this operation is missing from the
source; the handlers are modelled against it because both their call sites
assume it.  The callback state stands for the closure state the Python
callbacks mutate, so it survives a failed stream. -/
def execute_command_spec {σ : Type} (cb : String → σ → Except PyErr σ) (st : σ)
    (resp : StreamResponse) : σ × Except PyErr String :=
  match streamFold cb st resp.lines with
  | (st1, .error e) => (st1, .error e)
  | (st1, .ok acc) =>
      match resp.outcome with
      | .ok _ => (st1, .ok acc)
      | .error cause =>
          (st1, .error (.connectionError ("Failed to execute command: " ++ cause)))

/-- The payload of the /api/set_credentials POST; client_secret is whatever
os.getenv returned at client construction, possibly absent. -/
structure CredPayload where
  username : String
  password : String
  client_secret : Option String
  deriving Repr, DecidableEq

/-- The acknowledgment set_credentials fabricates for an empty response body. -/
def noContentAck : PyVal := PyVal.dict [("message", PyVal.str "No content in response")]

/-- AgentDClient.set_credentials as defined in the source: posts the payload -
including the possibly-unconfigured client secret, which is never checked -
and wraps a transport failure in ConnectionError.  The transport argument
stands for the POST: an error is a requests.exceptions.RequestException, an ok
carries the JSON body (none for an empty body). -/
def set_credentials (client_secret : Option String)
    (transport : CredPayload → Except String (Option PyVal))
    (username password : String) : Except PyErr PyVal :=
  match transport { username := username, password := password, client_secret := client_secret } with
  | .error cause => .error (.connectionError ("Failed to set credentials: " ++ cause))
  | .ok (some body) => .ok body
  | .ok none => .ok noContentAck

/-! ## The credential manager (credentials/credential_manager.py) -/

/-- CredentialManager.get_credentials: reads the two environment variables for
the portal (passed in as the two Option arguments) and raises ValueError if
either is absent or empty - the Python test is truthiness, so an empty string
counts as missing. -/
def get_credentials (envUsername envPassword : Option String) (portal_name : String) :
    Except PyErr (String × String) :=
  if envUsername.getD "" = "" ∨ envPassword.getD "" = "" then
    .error (.valueError ("Missing credentials for " ++ portal_name))
  else
    .ok (envUsername.getD "", envPassword.getD "")

/-! ## The external collaborators of a run -/

/-- The external world one task run observes: the json decoder applied to
stream lines, the EMOMED environment variables, the configured client secret,
the set_credentials transport and the /execute_task backend as a function of
the posted command. -/
structure Env where
  jsonLoads : String → Except String PyVal
  emomedUsername : Option String
  emomedPassword : Option String
  clientSecret : Option String
  credTransport : CredPayload → Except String (Option PyVal)
  backend : String → StreamResponse

/-! ## The portal handler (mohealthnet_agent.py) -/

/-- The print_stream closure of MoHealthNetAgent.execute.  An undecodable line
(json.loads raises JSONDecodeError) is caught and logged as a warning carrying
the raw line; a decoded line first runs the twelve defaulted metadata lookups
(which raise AttributeError when the decoded value is not an object), then
logs the tagged message - the tag is data.get("type", "info").upper() - and,
nested inside the message branch, a navigation entry when current_url is
truthy.  The closure touches no task-state field. -/
def mohealthnetPrintStream (jsonLoads : String → Except String PyVal) (line : String) :
    Except PyErr (List LogEntry) :=
  match jsonLoads (pyReplace line "data: " "") with
  | .error cause => .ok [LogEntry.parseWarning line cause]
  | .ok data => do
      let _ ← pyGet data "current_url" PyVal.pyNone
      let _ ← pyGet data "container_id" PyVal.pyNone
      let _ ← pyGet data "transaction_id" PyVal.pyNone
      let _ ← pyGet data "request_originator" PyVal.pyNone
      let _ ← pyGet data "page_title" PyVal.pyNone
      let _ ← pyGet data "status_code" PyVal.pyNone
      let _ ← pyGet data "error" PyVal.pyNone
      let _ ← pyGet data "warnings" PyVal.pyNone
      let _ ← pyGet data "element_state" PyVal.pyNone
      let _ ← pyGet data "navigation_state" PyVal.pyNone
      let _ ← pyGet data "form_data" PyVal.pyNone
      let _ ← pyGet data "response_headers" PyVal.pyNone
      let hasMsg ← pyMem data "message"
      if hasMsg then do
        let typeVal ← pyGet data "type" (PyVal.str "info")
        let msgType ← pyUpperVal typeVal
        let msgVal ← pyGetItem data "message"
        let navVal ← pyGet data "current_url" PyVal.pyNone
        if navVal.truthy then do
          let url ← pyGetItem data "current_url"
          let pt ← pyGet data "page_title" PyVal.pyNone
          pure [LogEntry.streamMessage msgType msgVal, LogEntry.navigation url pt]
        else
          pure [LogEntry.streamMessage msgType msgVal]
      else
        pure []

/-- The login command script MoHealthNetAgent.execute posts, a triple-quoted
literal with its indentation. -/
def mohealthnetCommand : String :=
  "\n            1. Navigate to https://www.emomed.com/portal/wps/myportal" ++
  "\n            2. Check if need to login by checking the URL. If the URL contains login, you are not logged in." ++
  "\n            3. If you are not logged in, use the enter secrets tool to log in." ++
  "\n            4. If login fails, terminate and report the error message." ++
  "\n            5. Verify successful login by confirming the URL is emomed.com/portal/wps/myportal" ++
  "\n            "

/-- The per-line callback MoHealthNetAgent passes to the streaming call; its
state is the accumulated log. -/
def mohealthnetCallback (env : Env) (line : String) (logs : List LogEntry) :
    Except PyErr (List LogEntry) :=
  (mohealthnetPrintStream env.jsonLoads line).map (fun es => logs ++ es)

/-- MoHealthNetAgent.execute: retrieve the EMOMED credentials, push them to
the backend, run the login script through the streaming call and store the
returned buffer in portal_response; any exception in that sequence is caught
and its text stored in error.  The streaming call is modelled by
execute_command_spec, the contract the call site assumes (see
execute_command for the source signature it actually hits). -/
def MoHealthNetAgent.execute (env : Env) (state : TaskState) : Except PyErr TaskState :=
  let attempt : Except PyErr TaskState := do
    let creds ← get_credentials env.emomedUsername env.emomedPassword "EMOMED"
    let _ ← set_credentials env.clientSecret env.credTransport creds.1 creds.2
    match execute_command_spec (mohealthnetCallback env) [] (env.backend mohealthnetCommand) with
    | (_, .error e) => .error e
    | (_, .ok response) => .ok { state with portal_response := some response }
  match attempt with
  | .ok s1 => .ok s1
  | .error e => .ok { state with error := some e.msg }

/-! ## The search handler (basic_search_agent.py) -/

/-- The print_stream closure of BasicSearchAgent.execute.  An undecodable line
is logged as plain text.  A decoded line first appends data["message"] (when
present) to the search_results list - before the metadata lookups, so the
append survives a later AttributeError - then logs the tagged message (tag
upper-cased as in the portal handler) and a navigation entry when current_url
is truthy (here outside the message branch).  The first component of the
result is what the closure appended to state["search_results"]. -/
def basicSearchPrintStream (jsonLoads : String → Except String PyVal) (line : String) :
    Except PyErr (List PyVal × List LogEntry) :=
  match jsonLoads (pyReplace line "data: " "") with
  | .error _ => .ok ([], [LogEntry.plainText line])
  | .ok data => do
      let hasMsg ← pyMem data "message"
      let collected ←
        if hasMsg then do
          let m ← pyGetItem data "message"
          pure [m]
        else
          pure []
      let _ ← pyGet data "current_url" PyVal.pyNone
      let _ ← pyGet data "container_id" PyVal.pyNone
      let _ ← pyGet data "transaction_id" PyVal.pyNone
      let _ ← pyGet data "page_title" PyVal.pyNone
      let _ ← pyGet data "status_code" PyVal.pyNone
      let msgLogs ←
        if hasMsg then do
          let typeVal ← pyGet data "type" (PyVal.str "info")
          let msgType ← pyUpperVal typeVal
          let msgVal ← pyGetItem data "message"
          pure [LogEntry.streamMessage msgType msgVal]
        else
          pure []
      let navVal ← pyGet data "current_url" PyVal.pyNone
      let navLogs ←
        if navVal.truthy then do
          let url ← pyGetItem data "current_url"
          let pt ← pyGet data "page_title" PyVal.pyNone
          pure [LogEntry.navigation url pt]
        else
          pure ([] : List LogEntry)
      pure (collected, msgLogs ++ navLogs)

/-- The search command BasicSearchAgent.execute posts. -/
def basicSearchCommand (q : String) : String :=
  "Navigate to google.com and search for: " ++ q

/-- The per-line callback BasicSearchAgent passes to the streaming call; its
state is the appended search_results plus the accumulated log. -/
def basicSearchCallback (env : Env) (line : String) (acc : List PyVal × List LogEntry) :
    Except PyErr (List PyVal × List LogEntry) :=
  (basicSearchPrintStream env.jsonLoads line).map (fun r => (acc.1 ++ r.1, acc.2 ++ r.2))

/-- BasicSearchAgent.execute: unconditionally initialises search_results to an
empty list before the guarded section, runs the search command through the
streaming call, overwrites search_results with the returned buffer on success,
and on any exception stores its text in error, leaving search_results at the
list the callback built so far.  Never raises. -/
def BasicSearchAgent.execute (env : Env) (state : TaskState) : Except PyErr TaskState :=
  let st0 : TaskState := { state with search_results := some (PyVal.list []) }
  let q := st0.query.getD ""
  match execute_command_spec (basicSearchCallback env) ([], []) (env.backend (basicSearchCommand q)) with
  | ((ms, _), .error e) =>
      .ok { st0 with search_results := some (PyVal.list ms), error := some e.msg }
  | (_, .ok response) => .ok { st0 with search_results := some (PyVal.str response) }

/-! ## The routers (medicaid_specialist_agent.py, insurance_agent.py) -/

/-- The keys of MedicaidSpecialistAgent.portal_agents. -/
def medicaidPortalKeys : List String := ["mohealthnet"]

/-- MedicaidSpecialistAgent.execute: route on state.get("portal_name",
"mohealthnet").lower(); delegate when the key is registered (the registry has
the single entry mohealthnet), otherwise set the unknown-portal error and
return the state. -/
def MedicaidSpecialistAgent.execute (env : Env) (state : TaskState) : Except PyErr TaskState :=
  let portal_name := pyLowerStr (state.portal_name.getD "mohealthnet")
  if medicaidPortalKeys.contains portal_name then
    MoHealthNetAgent.execute env state
  else
    .ok { state with error := some ("Unknown portal: " ++ portal_name) }

/-- The keys of InsuranceAgent.specialists. -/
def insuranceSpecialistKeys : List String := ["medicaid"]

/-- The patient-info preprocessing block of InsuranceAgent.execute: when the
query contains the literal marker DOB:, split on it, strip both parts, and
write patient_info from the first and last whitespace token of the name part -
tokens[0] and tokens[-1] raise IndexError when the name part has no tokens.
Runs before routing and regardless of any earlier error. -/
def insurancePreprocess (state : TaskState) : Except PyErr TaskState := do
  let query := state.query.getD ""
  if strOccurs "DOB:" query then do
    let name_part := pyStrip ((pySplit query "DOB:").getD 0 "")
    let dob_part := pyStrip ((pySplit query "DOB:").getD 1 "")
    let toks := pyWsTokens name_part
    let fn ← pyItem0 toks
    let ln ← pyItemLast toks
    pure { state with patient_info := some { first_name := fn, last_name := ln, dob := dob_part } }
  else
    pure state

/-- InsuranceAgent.execute: run the patient-info preprocessing, then route on
state.get("insurance_type", "medicaid").lower(); delegate when the key is
registered (the registry has the single entry medicaid), otherwise set the
unknown-insurance-type error and return the state. -/
def InsuranceAgent.execute (env : Env) (state : TaskState) : Except PyErr TaskState := do
  let state ← insurancePreprocess state
  let insurance_type := pyLowerStr (state.insurance_type.getD "medicaid")
  if insuranceSpecialistKeys.contains insurance_type then
    MedicaidSpecialistAgent.execute env state
  else
    pure { state with error := some ("Unknown insurance type: " ++ insurance_type) }

/-! ## The supervisor (supervisor_agent.py) -/

/-- BasicSearchAgent.get_capabilities. -/
def BasicSearchAgent.get_capabilities : String :=
  "Can perform Google searches and return results"

/-- InsuranceAgent.get_capabilities. -/
def InsuranceAgent.get_capabilities : String :=
  "Handles insurance tasks and delegates to appropriate specialists"

/-- The keys of SupervisorAgent.available_agents. -/
def supervisorAgentKeys : List String := ["search", "insurance"]

/-- The capability catalogue the supervisor builds from its registry for the
planning prompt (supervisor_agent.py lines 52-55): one dash-prefixed line per
registered agent, joined by newlines, each description taken from the agent
instance. -/
def agentsCapabilities : String :=
  "- search: " ++ BasicSearchAgent.get_capabilities ++ "\n" ++
  "- insurance: " ++ InsuranceAgent.get_capabilities

/-- The instructions text of the hardcoded fallback plan in
SupervisorAgent.plan_task - a literal in the source, not built from the
capability catalogue (its insurance line differs from
InsuranceAgent.get_capabilities). -/
def fallbackInstructions : String :=
  "I apologize, but I encountered an error while processing your request. " ++
  "Here are the available agents and their capabilities:\n" ++
  "- search: Can perform Google searches and return results\n" ++
  "- insurance: Handles insurance-related tasks and delegates to specialist agents"

/-- The fallback plan plan_task returns when interpreting the planner reply
raises. -/
def fallbackPlan : PyVal :=
  PyVal.dict
    [("agent", PyVal.str "self"),
     ("reasoning", PyVal.str "Error occurred during planning, handling directly"),
     ("instructions", PyVal.str fallbackInstructions)]

/-- The LLM reply content: either a string (then ast.literal_eval is applied)
or an already structured value. -/
inductive PlannerReply where
  | text : String → PlannerReply
  | structured : PyVal → PlannerReply

/-- SupervisorAgent.plan_task, with the model call already performed: the
guarded section evaluates a string reply with ast.literal_eval (passed in as
literalEval, an external collaborator; an error is the exception it raises)
and substitutes the fallback plan when that raises.  A successfully evaluated
value of any shape is returned as the plan - the guard catches evaluation
failures only. -/
def plan_task (literalEval : String → Except String PyVal) : PlannerReply → PyVal
  | PlannerReply.text s =>
      match literalEval s with
      | .ok plan => plan
      | .error _ => fallbackPlan
  | PlannerReply.structured v => v

/-- Coerce the delegated instructions value to a string for the query slot.
The Python source stores the raw value and a non-string would only blow up
inside the delegate string operations; no claim exercises that path, so the
type error is surfaced here. -/
def expectStr : PyVal → Except PyErr String
  | .str s => .ok s
  | v => .error (.typeError (v.typeName ++ " is not a string"))

/-- SupervisorAgent.execute: obtain the plan, store it in state.plan, then
read plan.get("agent") - the completion-log metadata performs the first
plan.get("agent", "unknown") and plan.get("reasoning", "none") accesses, which
raise AttributeError when the plan is not a mapping.  agent self answers
directly via state.response; a registered agent receives the instructions as
its query and its returned state is stamped with the plan reasoning; an
unknown agent sets the unknown-agent error. -/
def SupervisorAgent.execute (env : Env) (literalEval : String → Except String PyVal)
    (reply : PlannerReply) (state : TaskState) : Except PyErr TaskState := do
  let query := state.query.getD ""
  let plan := plan_task literalEval reply
  let state := { state with plan := some plan }
  let _ ← pyGet plan "agent" (PyVal.str "unknown")
  let _ ← pyGet plan "reasoning" (PyVal.str "none")
  let agentVal ← pyGet plan "agent" (PyVal.str "")
  let agent_name ← pyLowerVal agentVal
  if agent_name = "self" then do
    let instr ← pyGet plan "instructions" (PyVal.str "")
    pure { state with response := some instr }
  else if supervisorAgentKeys.contains agent_name then do
    let instrVal ← pyGet plan "instructions" (PyVal.str query)
    let instr ← expectStr instrVal
    let state := { state with query := some instr }
    let result ←
      if agent_name = "search" then BasicSearchAgent.execute env state
      else InsuranceAgent.execute env state
    let reasoningVal ← pyGet plan "reasoning" (PyVal.str "")
    pure { result with reasoning := some reasoningVal }
  else
    pure { state with error := some ("Unknown or unsupported agent: " ++ agent_name) }

/-! ## Statement helpers and concrete collaborators for the theorems -/

/-- Re-attach a pre-existing error to a stage result that was computed with
the error slot cleared: the stage output keeps its own error when it wrote
one and carries the old one otherwise.  Used to state that the stages never
read the error field. -/
def restoreError (e : String) : Except PyErr TaskState → Except PyErr TaskState :=
  Except.map (fun r => { r with error := some (r.error.getD e) })

/-- The logged (tag, message) pairs of a portal-handler parse. -/
def loggedMessages (r : Except PyErr (List LogEntry)) : List (String × PyVal) :=
  match r with
  | .ok es => messageEntries es
  | .error _ => []

/-- The values a search-handler parse appended to search_results. -/
def bsCollected (r : Except PyErr (List PyVal × List LogEntry)) : List PyVal :=
  match r with
  | .ok (ms, _) => ms
  | .error _ => []

/-- The logged (tag, message) pairs of a search-handler parse. -/
def bsLogged (r : Except PyErr (List PyVal × List LogEntry)) : List (String × PyVal) :=
  match r with
  | .ok (_, es) => messageEntries es
  | .error _ => []

/-- An environment in which every collaborator fails: the json decoder
rejects every line, no credentials or secret are configured, and both
transports refuse the connection. -/
def env0 : Env :=
  { jsonLoads := fun _ => .error "Expecting value: line 1 column 1",
    emomedUsername := none,
    emomedPassword := none,
    clientSecret := none,
    credTransport := fun _ => .error "connection refused",
    backend := fun _ => { lines := [], outcome := .error "connection refused" } }

/-- An environment in which credentials and secret are configured, pushing
them succeeds, and the streaming backend call fails with a connection refusal
before any line arrives. -/
def envRefused : Env :=
  { jsonLoads := fun _ => .error "Expecting value: line 1 column 1",
    emomedUsername := some "emomed-user",
    emomedPassword := some "emomed-pass",
    clientSecret := some "shared-secret",
    credTransport := fun _ => .ok none,
    backend := fun _ => { lines := [], outcome := .error "Connection refused" } }

/-- A literal_eval collaborator that rejects every reply. -/
def literalEvalFail : String → Except String PyVal :=
  fun _ => .error "malformed node or string"

/-- A literal_eval collaborator that evaluates every reply to an empty list -
a non-mapping value. -/
def literalEvalList : String → Except String PyVal :=
  fun _ => .ok (PyVal.list [])

/-- A json decoder that decodes every line to an object carrying message
hello and type Warning. -/
def jsonWarningEvent : String → Except String PyVal :=
  fun _ => .ok (PyVal.dict [("message", PyVal.str "hello"), ("type", PyVal.str "Warning")])

/-- A json decoder that rejects every line. -/
def jsonFail : String → Except String PyVal :=
  fun _ => .error "Expecting value"


/-! ## General lemmas about the embedding -/

@[simp] theorem pyBind_ok {α β : Type} (a : α) (f : α → Except PyErr β) :
    (Except.ok a >>= f) = f a := rfl

@[simp] theorem pyBind_error {α β : Type} (e : PyErr) (f : α → Except PyErr β) :
    ((Except.error e : Except PyErr α) >>= f) = Except.error e := rfl

@[simp] theorem pyMap_ok {α β : Type} (f : α → β) (a : α) :
    Except.map (ε := PyErr) f (Except.ok a) = Except.ok (f a) := rfl

@[simp] theorem pyMap_error {α β : Type} (f : α → β) (e : PyErr) :
    Except.map f (Except.error e : Except PyErr α) = Except.error e := rfl

/-- Desugared pure on the Except monad. -/
@[simp] theorem pyPure {α : Type} (a : α) : (pure a : Except PyErr α) = Except.ok a := rfl

@[simp] theorem pyFmap_ok {α β : Type} (f : α → β) (a : α) :
    (f <$> (Except.ok a : Except PyErr α)) = Except.ok (f a) := rfl

@[simp] theorem pyFmap_error {α β : Type} (f : α → β) (e : PyErr) :
    (f <$> (Except.error e : Except PyErr α)) = Except.error e := rfl

/-- MoHealthNetAgent.execute never raises and either records an error or
stores the streamed buffer, touching no other field. -/
theorem mohealthnet_shape (env : Env) (s : TaskState) :
    (∃ msg, MoHealthNetAgent.execute env s = .ok { s with error := some msg }) ∨
    (∃ resp, MoHealthNetAgent.execute env s = .ok { s with portal_response := some resp }) := by
  unfold MoHealthNetAgent.execute
  cases hc : get_credentials env.emomedUsername env.emomedPassword "EMOMED" with
  | error e =>
      left
      exact ⟨e.msg, by simp [hc]⟩
  | ok creds =>
      cases hs : set_credentials env.clientSecret env.credTransport creds.1 creds.2 with
      | error e =>
          left
          exact ⟨e.msg, by simp [hc, hs]⟩
      | ok ack =>
          rcases hr : execute_command_spec (mohealthnetCallback env) [] (env.backend mohealthnetCommand) with ⟨st, out⟩
          cases out with
          | error e =>
              left
              exact ⟨e.msg, by simp [hc, hs, hr]⟩
          | ok resp =>
              right
              exact ⟨resp, by simp [hc, hs, hr]⟩

/-- MedicaidSpecialistAgent.execute never raises and either records an error
or stores the streamed buffer, touching no other field. -/
theorem medicaid_shape (env : Env) (s : TaskState) :
    (∃ msg, MedicaidSpecialistAgent.execute env s = .ok { s with error := some msg }) ∨
    (∃ resp, MedicaidSpecialistAgent.execute env s = .ok { s with portal_response := some resp }) := by
  unfold MedicaidSpecialistAgent.execute
  simp only []
  split
  · exact mohealthnet_shape env s
  · left
    exact ⟨_, rfl⟩

/-- The patient-info preprocessing changes at most the patient_info field. -/
theorem insurancePreprocess_frame (s r : TaskState) (h : insurancePreprocess s = .ok r) :
    r = { s with patient_info := r.patient_info } := by
  unfold insurancePreprocess at h
  simp only [] at h
  split at h
  · cases h0 : pyItem0 (pyWsTokens (pyStrip ((pySplit (s.query.getD "") "DOB:").getD 0 ""))) with
    | error e => rw [h0] at h; simp at h
    | ok fn =>
        rw [h0] at h
        cases hl : pyItemLast (pyWsTokens (pyStrip ((pySplit (s.query.getD "") "DOB:").getD 0 ""))) with
        | error e => rw [hl] at h; simp at h
        | ok ln =>
            rw [hl] at h
            simp only [pyBind_ok, pyFmap_ok, pyPure, Except.ok.injEq] at h
            subst h
            rfl
  · simp only [pyPure, Except.ok.injEq] at h
    subst h
    rfl

/-- MoHealthNetAgent.execute never reads the error field: running it on a
state with error set is running it with error cleared and re-attaching the
old error wherever the stage did not write its own. -/
theorem mohealthnet_error_agnostic (env : Env) (s : TaskState) (e : String) :
    MoHealthNetAgent.execute env { s with error := some e } =
      restoreError e (MoHealthNetAgent.execute env { s with error := none }) := by
  unfold MoHealthNetAgent.execute restoreError
  cases hc : get_credentials env.emomedUsername env.emomedPassword "EMOMED" with
  | error err => simp [hc]
  | ok creds =>
      cases hs : set_credentials env.clientSecret env.credTransport creds.1 creds.2 with
      | error err => simp [hc, hs]
      | ok ack =>
          rcases hr : execute_command_spec (mohealthnetCallback env) [] (env.backend mohealthnetCommand) with ⟨st, out⟩
          cases out with
          | error err => simp [hc, hs, hr]
          | ok resp => simp [hc, hs, hr]

/-- BasicSearchAgent.execute never reads the error field. -/
theorem search_error_agnostic (env : Env) (s : TaskState) (e : String) :
    BasicSearchAgent.execute env { s with error := some e } =
      restoreError e (BasicSearchAgent.execute env { s with error := none }) := by
  unfold BasicSearchAgent.execute restoreError
  dsimp only
  rcases hr : execute_command_spec (basicSearchCallback env) ([], []) (env.backend (basicSearchCommand (s.query.getD ""))) with ⟨⟨ms, logs⟩, out⟩
  cases out with
  | error err => simp [hr]
  | ok resp => simp [hr]

/-- MedicaidSpecialistAgent.execute never reads the error field. -/
theorem medicaid_error_agnostic (env : Env) (s : TaskState) (e : String) :
    MedicaidSpecialistAgent.execute env { s with error := some e } =
      restoreError e (MedicaidSpecialistAgent.execute env { s with error := none }) := by
  unfold MedicaidSpecialistAgent.execute
  dsimp only
  split
  · exact mohealthnet_error_agnostic env s e
  · simp [restoreError]

/-- The patient-info preprocessing never reads the error field and carries it
through unchanged. -/
theorem insurancePreprocess_error_field (s : TaskState) (o : Option String) :
    insurancePreprocess { s with error := o } =
      Except.map (fun r => { r with error := o }) (insurancePreprocess s) := by
  unfold insurancePreprocess
  dsimp only
  split
  · cases h0 : pyItem0 (pyWsTokens (pyStrip ((pySplit (s.query.getD "") "DOB:").getD 0 ""))) with
    | error err => simp [h0]
    | ok fn =>
        cases hl : pyItemLast (pyWsTokens (pyStrip ((pySplit (s.query.getD "") "DOB:").getD 0 ""))) with
        | error err => simp [h0, hl]
        | ok ln => simp [h0, hl]
  · simp

/-- InsuranceAgent.execute never reads the error field. -/
theorem insurance_error_agnostic (env : Env) (s : TaskState) (e : String) :
    InsuranceAgent.execute env { s with error := some e } =
      restoreError e (InsuranceAgent.execute env { s with error := none }) := by
  unfold InsuranceAgent.execute
  rw [insurancePreprocess_error_field s (some e), insurancePreprocess_error_field s none]
  cases hp : insurancePreprocess s with
  | error err => simp [restoreError]
  | ok r =>
      simp only [pyMap_ok, pyBind_ok]
      split
      · exact medicaid_error_agnostic env r e
      · simp [restoreError]

/-! ## Claim C1: error short-circuiting -/

/-- C1 counterexample: a task state whose error is already set is not passed
through unchanged by the downstream stages - InsuranceAgent.execute still
parses patient info into the state and its routing step overwrites the
pre-existing error with its own unknown-key message. -/
theorem errored_state_not_passed_through :
    InsuranceAgent.execute env0
        { blankState with
          query := some "Jane Doe DOB: 01/01/1990",
          insurance_type := some "private",
          error := some "earlier failure" } ≠
      Except.ok
        { blankState with
          query := some "Jane Doe DOB: 01/01/1990",
          insurance_type := some "private",
          error := some "earlier failure" } ∧
    InsuranceAgent.execute env0
        { blankState with
          query := some "Jane Doe DOB: 01/01/1990",
          insurance_type := some "private",
          error := some "earlier failure" } =
      Except.ok
        { blankState with
          query := some "Jane Doe DOB: 01/01/1990",
          insurance_type := some "private",
          patient_info := some { first_name := "Jane", last_name := "Doe", dob := "01/01/1990" },
          error := some "Unknown insurance type: private" } :=
  ⟨by decide, by decide⟩

/-- C1 (amended): no downstream stage consults the error field at all - each
of InsuranceAgent, MedicaidSpecialistAgent, MoHealthNetAgent and
BasicSearchAgent behaves on an errored state exactly as on the same state
with the error cleared, carrying the old error through only where the stage
does not overwrite it with its own. -/
theorem stages_ignore_error_field (env : Env) (s : TaskState) (e : String) :
    InsuranceAgent.execute env { s with error := some e } =
      restoreError e (InsuranceAgent.execute env { s with error := none }) ∧
    MedicaidSpecialistAgent.execute env { s with error := some e } =
      restoreError e (MedicaidSpecialistAgent.execute env { s with error := none }) ∧
    MoHealthNetAgent.execute env { s with error := some e } =
      restoreError e (MoHealthNetAgent.execute env { s with error := none }) ∧
    BasicSearchAgent.execute env { s with error := some e } =
      restoreError e (BasicSearchAgent.execute env { s with error := none }) :=
  ⟨insurance_error_agnostic env s e, medicaid_error_agnostic env s e,
   mohealthnet_error_agnostic env s e, search_error_agnostic env s e⟩

/-! ## Claim C2: the streaming client and its callback -/

/-- C2: the source client accepts exactly the command parameter, so the
keyword argument callback that both handler call sites pass is unexpected and
the call raises TypeError - the client never invokes a per-line callback.
The buffer contract itself holds: each non-empty line plus a newline is
accumulated into the returned text. -/
theorem client_no_callback_param :
    executeCommandParams = ["command"] ∧
    unexpectedKwargs executeCommandParams handlerCallKwargs = ["callback"] ∧
    callRaisesTypeError executeCommandParams handlerCallKwargs = true ∧
    execute_command { lines := ["data: a", "", "data: b"], outcome := Except.ok () } =
      Except.ok "data: a\ndata: b\n" :=
  ⟨rfl, by decide, by decide, by decide⟩

/-! ## Claim C3: tolerance of undecodable stream lines -/

/-- C3: for every stream line on which structured decoding fails, both
print_stream parsers return normally (never raise) and record exactly the raw
line, with no structured field. -/
theorem decode_failure_tolerated (J : String → Except String PyVal) (line cause : String)
    (h : J (pyReplace line "data: " "") = Except.error cause) :
    mohealthnetPrintStream J line = Except.ok [LogEntry.parseWarning line cause] ∧
    basicSearchPrintStream J line = Except.ok ([], [LogEntry.plainText line]) := by
  unfold mohealthnetPrintStream basicSearchPrintStream
  rw [h]
  exact ⟨rfl, rfl⟩

/-- C3 witness: a concrete plain-text line. -/
theorem decode_failure_tolerated_witness :
    mohealthnetPrintStream jsonFail "plain banner line" =
      Except.ok [LogEntry.parseWarning "plain banner line" "Expecting value"] ∧
    basicSearchPrintStream jsonFail "plain banner line" =
      Except.ok ([], [LogEntry.plainText "plain banner line"]) :=
  decode_failure_tolerated jsonFail "plain banner line" "Expecting value" rfl

/-! ## Claim C7: set_credentials with an unconfigured secret -/

/-- C7 counterexample: with the shared client secret unconfigured,
set_credentials does not raise any configuration error - it performs the
request, returning the acknowledgment on success and raising only the
transport ConnectionError on failure. -/
theorem missing_secret_no_auth_error :
    set_credentials none (fun _ => Except.ok none) "alice" "pw" = Except.ok noContentAck ∧
    set_credentials none (fun _ => Except.error "refused") "alice" "pw" =
      Except.error (PyErr.connectionError "Failed to set credentials: refused") :=
  ⟨rfl, rfl⟩

/-- C7 (amended): set_credentials never raises AuthConfigError - no such
check exists - and the only exception it raises is the ConnectionError
wrapping a transport failure; the request is sent even with the secret
unconfigured. -/
theorem set_credentials_never_auth_config (transport : CredPayload → Except String (Option PyVal))
    (secret : Option String) (u p : String) :
    (∀ m, set_credentials secret transport u p ≠ Except.error (PyErr.authConfigError m)) ∧
    (∀ cause, transport { username := u, password := p, client_secret := secret } = Except.error cause →
      set_credentials secret transport u p =
        Except.error (PyErr.connectionError ("Failed to set credentials: " ++ cause))) := by
  constructor
  · intro m
    unfold set_credentials
    cases ht : transport { username := u, password := p, client_secret := secret } with
    | error c => simp
    | ok body =>
        cases body with
        | none => simp
        | some b => simp
  · intro cause h
    unfold set_credentials
    rw [h]

/-- C7 witness: a concrete refused transport with the secret unconfigured. -/
theorem set_credentials_never_auth_config_witness :
    set_credentials none (fun _ => Except.error "boom") "alice" "pw" =
      Except.error (PyErr.connectionError ("Failed to set credentials: " ++ "boom")) :=
  (set_credentials_never_auth_config (fun _ => Except.error "boom") none "alice" "pw").2 "boom" rfl

/-! ## Claim C10: a successfully evaluated non-mapping plan -/

/-- C10: whenever the planner reply literal-evaluates to a non-mapping value,
SupervisorAgent.execute raises an uncaught AttributeError at the first
plan.get access instead of returning a state carrying error - plan_task
guards only evaluation failures. -/
theorem non_mapping_plan_raises (env : Env) (lEval : String → Except String PyVal)
    (reply : String) (v : PyVal) (s : TaskState)
    (h : lEval reply = Except.ok v) (hv : v.isDict = false) :
    SupervisorAgent.execute env lEval (PlannerReply.text reply) s =
      Except.error (PyErr.attributeError (v.typeName ++ " object has no attribute get")) := by
  have hplan : plan_task lEval (PlannerReply.text reply) = v := by
    simp [plan_task, h]
  unfold SupervisorAgent.execute
  rw [hplan]
  cases v with
  | dict kvs => simp [PyVal.isDict] at hv
  | pyNone => simp [pyGet, PyVal.typeName]
  | pyBool b => simp [pyGet, PyVal.typeName]
  | pyInt n => simp [pyGet, PyVal.typeName]
  | str a => simp [pyGet, PyVal.typeName]
  | list xs => simp [pyGet, PyVal.typeName]

/-- C10 witness: a reply evaluating to a list. -/
theorem non_mapping_plan_raises_witness :
    SupervisorAgent.execute env0 literalEvalList (PlannerReply.text "[1, 2]") blankState =
      Except.error (PyErr.attributeError ((PyVal.list []).typeName ++ " object has no attribute get")) :=
  non_mapping_plan_raises env0 literalEvalList "[1, 2]" (PyVal.list []) blankState rfl rfl

/-! ## Claim C4: unknown routing keys and the state frame -/

/-- C4 counterexample: on an unknown insurance routing key, InsuranceAgent
sets the error but does not leave every other field byte-identical - its
patient-info preprocessing has already rewritten patient_info. -/
theorem unknown_key_not_frame_preserving :
    InsuranceAgent.execute env0
        { blankState with
          query := some "Jane Doe DOB: 01/01/1990",
          insurance_type := some "private" } =
      Except.ok
        { blankState with
          query := some "Jane Doe DOB: 01/01/1990",
          insurance_type := some "private",
          patient_info := some { first_name := "Jane", last_name := "Doe", dob := "01/01/1990" },
          error := some "Unknown insurance type: private" } ∧
    ({ blankState with
       query := some "Jane Doe DOB: 01/01/1990",
       insurance_type := some "private" } : TaskState).patient_info ≠
      some { first_name := "Jane", last_name := "Doe", dob := "01/01/1990" } :=
  ⟨by decide, by decide⟩

/-- C4 (amended): on an unknown routing key each router sets error to its
unknown-key message; MedicaidSpecialistAgent leaves every other field
byte-identical, while InsuranceAgent first runs the patient-info
preprocessing - which may rewrite patient_info (and may itself raise) but
changes nothing else - and leaves every field other than patient_info and
error identical. -/
theorem unknown_key_error_frame (env : Env) (s : TaskState) :
    (∀ k, s.portal_name = some k → medicaidPortalKeys.contains (pyLowerStr k) = false →
      MedicaidSpecialistAgent.execute env s =
        Except.ok { s with error := some ("Unknown portal: " ++ pyLowerStr k) }) ∧
    (∀ t, s.insurance_type = some t → insuranceSpecialistKeys.contains (pyLowerStr t) = false →
      InsuranceAgent.execute env s =
        Except.map (fun r => { r with error := some ("Unknown insurance type: " ++ pyLowerStr t) })
          (insurancePreprocess s)) ∧
    (∀ r, insurancePreprocess s = .ok r → r = { s with patient_info := r.patient_info }) := by
  refine ⟨?_, ?_, fun r h => insurancePreprocess_frame s r h⟩
  · intro k hk hcont
    have hmem : pyLowerStr k ∉ medicaidPortalKeys := by simpa using hcont
    unfold MedicaidSpecialistAgent.execute
    rw [hk]
    simp [hmem]
  · intro t ht hcont
    have hmem : pyLowerStr t ∉ insuranceSpecialistKeys := by simpa using hcont
    unfold InsuranceAgent.execute
    cases hp : insurancePreprocess s with
    | error err => simp
    | ok r =>
        have hr : r.insurance_type = some t := by
          rw [insurancePreprocess_frame s r hp]
          exact ht
        simp only [pyBind_ok, pyMap_ok]
        rw [hr]
        simp [hmem]

/-- C4 witness: the medicaid router and the insurance router at unknown
keys. -/
theorem unknown_key_error_frame_witness :
    MedicaidSpecialistAgent.execute env0 { blankState with portal_name := some "Anthem" } =
      Except.ok
        { blankState with
          portal_name := some "Anthem",
          error := some ("Unknown portal: " ++ pyLowerStr "Anthem") } ∧
    InsuranceAgent.execute env0 { blankState with insurance_type := some "Tricare" } =
      Except.map
        (fun r => { r with error := some ("Unknown insurance type: " ++ pyLowerStr "Tricare") })
        (insurancePreprocess { blankState with insurance_type := some "Tricare" }) :=
  ⟨(unknown_key_error_frame env0 { blankState with portal_name := some "Anthem" }).1
      "Anthem" rfl (by decide),
   (unknown_key_error_frame env0 { blankState with insurance_type := some "Tricare" }).2.1
      "Tricare" rfl (by decide)⟩

/-! ## Claim C5: the planner fallback plan -/

set_option maxRecDepth 16384 in
/-- C5 counterexample: the substituted fallback plan is stored and routes to
self, but its instructions text is a hardcoded literal that is not built from
the capability catalogue: the catalogue entry of the insurance agent (and
hence the catalogue text) does not occur in it, though the search entry
happens to coincide. -/
theorem fallback_not_built_from_catalogue :
    SupervisorAgent.execute env0 literalEvalFail (PlannerReply.text "surely not a plan") blankState =
      Except.ok
        { blankState with
          plan := some fallbackPlan,
          response := some (PyVal.str fallbackInstructions) } ∧
    strOccurs InsuranceAgent.get_capabilities fallbackInstructions = false ∧
    strOccurs agentsCapabilities fallbackInstructions = false ∧
    strOccurs BasicSearchAgent.get_capabilities fallbackInstructions = true :=
  ⟨by decide, by decide, by decide, by decide⟩

/-- C5 (amended): whenever literal evaluation of the planner reply fails, the
Orchestrator substitutes the hardcoded fallback plan - agent self, the fixed
reasoning text and the static hardcoded capabilities message - stores it in
state.plan, answers with it in state.response, and raises nothing. -/
theorem parse_failure_fallback_plan (env : Env) (lEval : String → Except String PyVal)
    (reply cause : String) (s : TaskState)
    (h : lEval reply = Except.error cause) :
    SupervisorAgent.execute env lEval (PlannerReply.text reply) s =
      Except.ok
        { s with
          plan := some fallbackPlan,
          response := some (PyVal.str fallbackInstructions) } ∧
    pyGet fallbackPlan "agent" (PyVal.str "") = Except.ok (PyVal.str "self") := by
  constructor
  · have hplan : plan_task lEval (PlannerReply.text reply) = fallbackPlan := by
      simp [plan_task, h]
    have hself : pyLowerStr "self" = "self" := by decide
    unfold SupervisorAgent.execute
    rw [hplan]
    simp [pyGet, fallbackPlan, pyLookup, pyLowerVal, hself]
  · decide

/-- C5 witness: a concrete unparsable reply. -/
theorem parse_failure_fallback_plan_witness :
    SupervisorAgent.execute env0 literalEvalFail (PlannerReply.text "gibberish") blankState =
      Except.ok
        { blankState with
          plan := some fallbackPlan,
          response := some (PyVal.str fallbackInstructions) } ∧
    pyGet fallbackPlan "agent" (PyVal.str "") = Except.ok (PyVal.str "self") :=
  parse_failure_fallback_plan env0 literalEvalFail "gibberish" "malformed node or string"
    blankState rfl

/-! ## Claim C6: transport failure during the streaming call -/

/-- C6 counterexample: on a connection error the search_results field of the
search handler does not remain unset - the handler initialised it to an empty
list before the call, so the returned state carries that list alongside the
error. -/
theorem search_results_initialized_on_failure :
    BasicSearchAgent.execute envRefused { blankState with query := some "weather" } =
      Except.ok
        { blankState with
          query := some "weather",
          search_results := some (PyVal.list []),
          error := some "Failed to execute command: Connection refused" } ∧
    some (PyVal.list []) ≠ (none : Option PyVal) :=
  ⟨by decide, by decide⟩

/-- C6 (amended): when the backend transport fails with a connection error
during the streaming call (credentials succeeding and no callback raising),
each handler returns the state with error set to the wrapped cause text;
portal_response stays untouched in MoHealthNetAgent, while in
BasicSearchAgent search_results does not remain unset - it holds the list of
messages streamed before the failure (empty when the failure precedes every
line). -/
theorem transport_error_recorded (env : Env) (s : TaskState) (cause : String) :
    (∀ u p ack logs acc,
      get_credentials env.emomedUsername env.emomedPassword "EMOMED" = Except.ok (u, p) →
      set_credentials env.clientSecret env.credTransport u p = Except.ok ack →
      streamFold (mohealthnetCallback env) [] (env.backend mohealthnetCommand).lines =
        (logs, Except.ok acc) →
      (env.backend mohealthnetCommand).outcome = Except.error cause →
      MoHealthNetAgent.execute env s =
        Except.ok { s with error := some ("Failed to execute command: " ++ cause) }) ∧
    (∀ ms logs acc,
      streamFold (basicSearchCallback env) ([], [])
          (env.backend (basicSearchCommand (s.query.getD ""))).lines =
        ((ms, logs), Except.ok acc) →
      (env.backend (basicSearchCommand (s.query.getD ""))).outcome = Except.error cause →
      BasicSearchAgent.execute env s =
        Except.ok
          { s with
            search_results := some (PyVal.list ms),
            error := some ("Failed to execute command: " ++ cause) }) := by
  constructor
  · intro u p ack logs acc hc hs hsf hout
    unfold MoHealthNetAgent.execute execute_command_spec
    rw [hsf, hout]
    simp [hc, hs, PyErr.msg]
  · intro ms logs acc hsf hout
    unfold BasicSearchAgent.execute execute_command_spec
    dsimp only
    rw [hsf, hout]
    simp [PyErr.msg]

/-- C6 witness: a connection refused before any line, with configured
credentials. -/
theorem transport_error_recorded_witness :
    MoHealthNetAgent.execute envRefused blankState =
      Except.ok { blankState with error := some ("Failed to execute command: " ++ "Connection refused") } ∧
    BasicSearchAgent.execute envRefused blankState =
      Except.ok
        { blankState with
          search_results := some (PyVal.list []),
          error := some ("Failed to execute command: " ++ "Connection refused") } :=
  ⟨(transport_error_recorded envRefused blankState "Connection refused").1
      "emomed-user" "emomed-pass" noContentAck [] "" (by decide) (by decide) rfl rfl,
   (transport_error_recorded envRefused blankState "Connection refused").2
      [] [] "" rfl rfl⟩

/-! ## Claim C8: the event type tag of a well-formed line -/

/-- C8 counterexample: for a well-formed line with type Warning the logged
tag is WARNING - the type is upper-cased for the tag, not lower-cased. -/
theorem event_type_upper_not_lower :
    loggedMessages (mohealthnetPrintStream jsonWarningEvent "data: x") =
      [("WARNING", PyVal.str "hello")] ∧
    bsLogged (basicSearchPrintStream jsonWarningEvent "data: x") =
      [("WARNING", PyVal.str "hello")] ∧
    "WARNING" ≠ pyLowerStr "Warning" :=
  ⟨by decide, by decide, by decide⟩

/-- C8 (amended): for every line decoding to an object with message m, both
parsers emit exactly one tagged message: the message is m and the tag is the
type value upper-cased, INFO when the type key is absent; the search parser
additionally appends m to search_results. -/
theorem message_type_uppercased (J : String → Except String PyVal) (line m : String)
    (kvs : List (String × PyVal))
    (hdec : J (pyReplace line "data: " "") = Except.ok (PyVal.dict kvs))
    (hmsg : pyLookup kvs "message" = some (PyVal.str m)) :
    (∀ t, pyLookup kvs "type" = some (PyVal.str t) →
      loggedMessages (mohealthnetPrintStream J line) = [(pyUpperStr t, PyVal.str m)] ∧
      bsCollected (basicSearchPrintStream J line) = [PyVal.str m] ∧
      bsLogged (basicSearchPrintStream J line) = [(pyUpperStr t, PyVal.str m)]) ∧
    (pyLookup kvs "type" = none →
      loggedMessages (mohealthnetPrintStream J line) = [("INFO", PyVal.str m)] ∧
      bsCollected (basicSearchPrintStream J line) = [PyVal.str m] ∧
      bsLogged (basicSearchPrintStream J line) = [("INFO", PyVal.str m)]) := by
  have hinfo : pyUpperStr "info" = "INFO" := by decide
  constructor
  · intro t ht
    unfold mohealthnetPrintStream basicSearchPrintStream
    rw [hdec]
    cases hcu : pyLookup kvs "current_url" with
    | none =>
        refine ⟨?_, ?_, ?_⟩ <;>
          simp [pyGet, pyMem, pyGetItem, hmsg, ht, hcu, pyUpperVal, PyVal.truthy,
            loggedMessages, bsCollected, bsLogged, messageEntries]
    | some v =>
        by_cases hv : v.truthy = true <;>
          refine ⟨?_, ?_, ?_⟩ <;>
            simp [pyGet, pyMem, pyGetItem, hmsg, ht, hcu, hv, pyUpperVal,
              loggedMessages, bsCollected, bsLogged, messageEntries]
  · intro ht
    unfold mohealthnetPrintStream basicSearchPrintStream
    rw [hdec]
    cases hcu : pyLookup kvs "current_url" with
    | none =>
        refine ⟨?_, ?_, ?_⟩ <;>
          simp [pyGet, pyMem, pyGetItem, hmsg, ht, hcu, pyUpperVal, PyVal.truthy, hinfo,
            loggedMessages, bsCollected, bsLogged, messageEntries]
    | some v =>
        by_cases hv : v.truthy = true <;>
          refine ⟨?_, ?_, ?_⟩ <;>
            simp [pyGet, pyMem, pyGetItem, hmsg, ht, hcu, hv, pyUpperVal, hinfo,
              loggedMessages, bsCollected, bsLogged, messageEntries]

/-- C8 witness: a concrete line with type Warning. -/
theorem message_type_uppercased_witness :
    loggedMessages (mohealthnetPrintStream jsonWarningEvent "data: x") =
      [(pyUpperStr "Warning", PyVal.str "hello")] ∧
    bsCollected (basicSearchPrintStream jsonWarningEvent "data: x") = [PyVal.str "hello"] ∧
    bsLogged (basicSearchPrintStream jsonWarningEvent "data: x") =
      [(pyUpperStr "Warning", PyVal.str "hello")] :=
  (message_type_uppercased jsonWarningEvent "data: x" "hello"
      [("message", PyVal.str "hello"), ("type", PyVal.str "Warning")] rfl rfl).1 "Warning" rfl

/-! ## Claim C9: queries with and without the DOB marker -/

/-- C9 counterexample: on the scenario query, which contains the DOB marker
with no name tokens before it, InsuranceAgent.execute raises an uncaught
IndexError rather than completing. -/
theorem dob_scenario_query_raises :
    InsuranceAgent.execute env0 { blankState with query := some "DOB: none provided" } =
      Except.error (PyErr.indexError "list index out of range") := by
  decide

/-- C9 (amended): for every query without the DOB marker, InsuranceAgent
completes without raising, leaves patient_info exactly as it was, and routing
proceeds to the medicaid specialist; but for every query containing the
marker with no name tokens before it, execute raises an uncaught
IndexError. -/
theorem no_marker_degrades_gracefully (env : Env) (s : TaskState) :
    (∀ q, s.query = some q → strOccurs "DOB:" q = false → s.insurance_type = none →
      InsuranceAgent.execute env s = MedicaidSpecialistAgent.execute env s ∧
      raisesErr (InsuranceAgent.execute env s) = false ∧
      (∀ r, InsuranceAgent.execute env s = Except.ok r → r.patient_info = s.patient_info)) ∧
    (∀ q, s.query = some q → strOccurs "DOB:" q = true →
      pyWsTokens (pyStrip ((pySplit q "DOB:").getD 0 "")) = [] →
      InsuranceAgent.execute env s = Except.error (PyErr.indexError "list index out of range")) := by
  constructor
  · intro q hq hocc hins
    have hpre : insurancePreprocess s = Except.ok s := by
      unfold insurancePreprocess
      rw [hq]
      simp [hocc]
    have hroute : InsuranceAgent.execute env s = MedicaidSpecialistAgent.execute env s := by
      unfold InsuranceAgent.execute
      rw [hpre]
      have hmed : pyLowerStr (s.insurance_type.getD "medicaid") = "medicaid" := by
        rw [hins]
        decide
      have hmem : "medicaid" ∈ insuranceSpecialistKeys := by decide
      simp [hmed, hmem]
    refine ⟨hroute, ?_, ?_⟩
    · rcases medicaid_shape env s with ⟨msg, hm⟩ | ⟨resp, hm⟩ <;>
        simp [hroute, hm, raisesErr]
    · intro r hrr
      rw [hroute] at hrr
      rcases medicaid_shape env s with ⟨msg, hm⟩ | ⟨resp, hm⟩ <;>
      · rw [hm] at hrr
        cases hrr
        rfl
  · intro q hq hocc htoks
    have h0 : pyItem0 (pyWsTokens (pyStrip ((pySplit q "DOB:").getD 0 ""))) =
        Except.error (PyErr.indexError "list index out of range") := by
      rw [htoks]
      rfl
    have hpre : insurancePreprocess s = Except.error (PyErr.indexError "list index out of range") := by
      unfold insurancePreprocess
      rw [hq]
      simp only [Option.getD_some]
      rw [if_pos hocc, h0]
      simp
    unfold InsuranceAgent.execute
    rw [hpre]
    rfl

/-- C9 witness: the marker-free variant routes to the specialist without
raising and preserves patient_info; the scenario query itself raises. -/
theorem no_marker_degrades_gracefully_witness :
    InsuranceAgent.execute env0 { blankState with query := some "none provided" } =
      MedicaidSpecialistAgent.execute env0 { blankState with query := some "none provided" } ∧
    raisesErr (InsuranceAgent.execute env0 { blankState with query := some "none provided" }) = false ∧
    ({ blankState with
       query := some "none provided",
       error := some "Missing credentials for EMOMED" } : TaskState).patient_info =
      ({ blankState with query := some "none provided" } : TaskState).patient_info ∧
    InsuranceAgent.execute env0 { blankState with query := some "DOB: none provided" } =
      Except.error (PyErr.indexError "list index out of range") := by
  have h1 := (no_marker_degrades_gracefully env0
      { blankState with query := some "none provided" }).1 "none provided" rfl (by decide) rfl
  have h2 := (no_marker_degrades_gracefully env0
      { blankState with query := some "DOB: none provided" }).2 "DOB: none provided" rfl
      (by decide) (by decide)
  exact ⟨h1.1, h1.2.1, h1.2.2 _ (by decide), h2⟩

end Pathway
